import Mathlib

/-!
Verification development for the tuesdaybot repository (src/main.rs).

The embedding models:
- the constant tables TIME_UNITS / TIME_UNITS_PLURAL / TIME_MULTIPLIERS /
  SI_UNITS / SI_POWERS (main.rs lines 13-26);
- Handler::find_multiplier_from (lines 118-145), where a RegexSet built from
  literal alias patterns is modelled extensionally by the list of matched
  pattern indices (all patterns are literal substrings, except the day entry
  " day|days" which is an alternation of two literals);
- Handler::initialize_regex (lines 41-50) and the regex cache, modelled as an
  optional cache value threaded explicitly;
- the countdown computation of Handler::handle_tuesday (lines 52-76), over a
  model of chrono's NaiveDate/NaiveDateTime as (year, ordinal day, nanosecond
  of day) with proleptic-Gregorian weekday arithmetic.

Floating-point scaling (`(10 as f64).powf`) is idealised as exact rational
arithmetic; machine integers stay well inside their ranges for every input
considered here, so Nat/Int are used directly.
-/

/-- Source: `TIME_UNITS` (main.rs line 13), the regex pattern of each duration unit. -/
def TIME_UNITS : List String := ["sec", "min", "hour", " day|days", "week", "year"]

/-- Source: `TIME_UNITS_PLURAL` (main.rs line 14). -/
def TIME_UNITS_PLURAL : List String := ["seconds", "minutes", "hours", "days", "weeks", "years"]

/-- Source: `TIME_MULTIPLIERS` (main.rs line 15), seconds per unit. -/
def TIME_MULTIPLIERS : List Int := [1, 60, 3600, 86400, 604800, 31557600]

/-- Source: `DEFAULT_TIME_INDEX` (main.rs line 17). -/
def DEFAULT_TIME_INDEX : Nat := 2

/-- Source: `SI_UNITS` (main.rs lines 19-22), metric alias patterns. -/
def SI_UNITS : List String :=
  ["yocto", "zepto", "atto", "femto", "pico", "nano", "micro", "milli", "centi", "deci",
   "deca", "hecto", "kilo", "mega", "giga", "tera", "peta", "exa", "zetta", "yotta"]

/-- Source: `SI_POWERS` (main.rs lines 24-26). -/
def SI_POWERS : List Int :=
  [-24, -21, -18, -15, -12, -9, -6, -3, -2, -1, 1, 2, 3, 6, 9, 12, 15, 18, 21, 24]

/-- Substring containment: `containsSub hay needle` is true when `needle`
occurs contiguously inside `hay`.  This is the matching semantics of an
unanchored regex search for a literal pattern. -/
def containsSub (hay needle : List Char) : Bool :=
  match hay with
  | [] => needle.isEmpty
  | c :: t => needle.isPrefixOf (c :: t) || containsSub t needle

/-- Whether pattern `i` of the `TIME_UNITS` RegexSet matches text `s`.
Every pattern is a literal except index 3, `" day|days"`, an alternation of
the two literals `" day"` and `"days"`.  Indices outside the table never
match (meaningful for `i < 6` only). -/
def timePatternMatches (s : List Char) : Nat → Bool
  | 0 => containsSub s ("sec".data)
  | 1 => containsSub s ("min".data)
  | 2 => containsSub s ("hour".data)
  | 3 => containsSub s (" day".data) || containsSub s ("days".data)
  | 4 => containsSub s ("week".data)
  | 5 => containsSub s ("year".data)
  | _ => false

/-- Whether pattern `i` of the `SI_UNITS` RegexSet matches text `s`
(meaningful for `i < 20`, the table size). -/
def siPatternMatches (s : List Char) (i : Nat) : Bool :=
  containsSub s ((SI_UNITS.getD i "").data)

/-- `regex_cache.time_regex.matches(&s)`: the list of matched pattern
indices, in ascending order, as `SetMatches::iter` yields them. -/
def timeMatches (s : List Char) : List Nat :=
  (List.range 6).filter (timePatternMatches s)

/-- `regex_cache.si_regex.matches(&s)`: the list of matched pattern indices,
in ascending order. -/
def siMatches (s : List Char) : List Nat :=
  (List.range 20).filter (siPatternMatches s)

/-- Concatenation of a list of strings (used to describe the label built by
the accumulation loop of `find_multiplier_from`). -/
def concatAll : List String → String
  | [] => ""
  | x :: xs => x ++ concatAll xs

/-- The `time_index` selection of `find_multiplier_from` (main.rs lines
128-131): the last (highest) matched index via `next_back`, defaulting to
`DEFAULT_TIME_INDEX` when nothing matched. -/
def time_index_from (tm : List Nat) : Nat :=
  match tm.getLast? with
  | none => DEFAULT_TIME_INDEX
  | some i => i

/-- The body of `Handler::find_multiplier_from` (main.rs lines 118-145),
parameterised by the two match-index lists produced by the cached RegexSets.
The loop over `si_matches` (lines 136-139) is the fold accumulating
`si_power` (starting at 3) and the prefix string; the result is
`(TIME_MULTIPLIERS[time_index] as f64) * 10f64.powf(si_power)` together with
the prefix string followed by `TIME_UNITS_PLURAL[time_index]`. -/
def find_multiplier_core (tm sm : List Nat) : ℚ × String :=
  let time_index := time_index_from tm
  let folded : Int × String :=
    sm.foldl (fun acc i => (acc.1 + SI_POWERS.getD i 0, acc.2 ++ SI_UNITS.getD i "")) (3, "")
  let unit_string := folded.2 ++ TIME_UNITS_PLURAL.getD time_index ""
  let multiplier : ℚ := (TIME_MULTIPLIERS.getD time_index 0 : ℚ) * (10 : ℚ) ^ folded.1
  (multiplier, unit_string)

/-- `Handler::find_multiplier_from` applied with the regexes built from
`TIME_UNITS` and `SI_UNITS` (the cache as `initialize_regex` constructs it). -/
def find_multiplier_from (s : List Char) : ℚ × String :=
  find_multiplier_core (timeMatches s) (siMatches s)

/-- The `CustomRegexCache` struct (main.rs lines 28-31).  A `RegexSet` is
modelled extensionally by its `matches` method: the function from text to
the list of matched pattern indices. -/
structure CustomRegexCache where
  time_regex : List Char → List Nat
  si_regex : List Char → List Nat

/-- `Handler::initialize_regex` (main.rs lines 41-50): builds the two
RegexSets from `TIME_UNITS` and `SI_UNITS` and inserts them into the
client's shared data map, replacing whatever was there. -/
def init_regex (_data : Option CustomRegexCache) : Option CustomRegexCache :=
  some { time_regex := timeMatches, si_regex := siMatches }

/-- `Handler::find_multiplier_from` as it actually runs: it reads the cache
from the context's data map (`data.get::<RegexKey>().expect(..)`, main.rs
lines 120-123).  A missing cache panics (modelled as `none`); otherwise the
pure computation runs against the cached matchers.  The second component is
the data map after the call (the function only holds a read lock, so it is
returned unchanged). -/
def find_multiplier_from_ctx (data : Option CustomRegexCache) (s : List Char) :
    Option (ℚ × String) × Option CustomRegexCache :=
  match data with
  | none => (none, none)
  | some cache =>
    (some (find_multiplier_core (cache.time_regex s) (cache.si_regex s)), some cache)

/-- Leap-year test of the proleptic Gregorian calendar (chrono's year flags). -/
def isLeap (y : Int) : Bool := (y % 4 == 0 && y % 100 != 0) || y % 400 == 0

/-- Number of days in year `y` (365 or 366). -/
def daysInYear (y : Int) : Nat := if isLeap y then 366 else 365

/-- chrono `NaiveDate`, represented as a year and a 1-based ordinal day. -/
structure NaiveDate where
  year : Int
  ordinal : Nat
deriving DecidableEq

/-- A representable `NaiveDate`: the ordinal lies in the year. -/
def NaiveDate.valid (d : NaiveDate) : Prop :=
  1 ≤ d.ordinal ∧ d.ordinal ≤ daysInYear d.year

instance (d : NaiveDate) : Decidable d.valid :=
  inferInstanceAs (Decidable (1 ≤ d.ordinal ∧ d.ordinal ≤ daysInYear d.year))

/-- Day count on the proleptic Gregorian timeline: day number of ordinal `o`
of year `y`, with 0001-01-01 as day 1. -/
def daysFromYear1 (y : Int) (o : Nat) : Int :=
  365 * (y - 1) + (y - 1) / 4 - (y - 1) / 100 + (y - 1) / 400 + o

inductive Weekday
  | mon | tue | wed | thu | fri | sat | sun
deriving DecidableEq

/-- Weekday index with Monday = 0 .. Sunday = 6 (chrono's
`num_days_from_monday`); 0001-01-01 is a Monday. -/
def weekdayIdx (d : NaiveDate) : Nat :=
  ((daysFromYear1 d.year d.ordinal - 1) % 7).toNat

/-- chrono `NaiveDate::weekday`. -/
def NaiveDate.weekday (d : NaiveDate) : Weekday :=
  match weekdayIdx d with
  | 0 => .mon
  | 1 => .tue
  | 2 => .wed
  | 3 => .thu
  | 4 => .fri
  | 5 => .sat
  | _ => .sun

/-- chrono `NaiveDateTime`: a date plus the nanosecond of the day
(`Local::now().naive_local()` carries sub-second precision). -/
structure NaiveDateTime where
  date : NaiveDate
  nsOfDay : Nat
deriving DecidableEq

/-- A representable `NaiveDateTime`. -/
def NaiveDateTime.valid (t : NaiveDateTime) : Prop :=
  t.date.valid ∧ t.nsOfDay < 86400000000000

instance (t : NaiveDateTime) : Decidable t.valid :=
  inferInstanceAs (Decidable (t.date.valid ∧ t.nsOfDay < 86400000000000))

/-- The `num_days_increment` match of `handle_tuesday` (main.rs lines 57-65). -/
def numDaysIncrement : Weekday → Nat
  | .mon => 1
  | .tue => 0
  | .wed => 6
  | .thu => 5
  | .fri => 4
  | .sat => 3
  | .sun => 2

/-- chrono `NaiveDate::with_ordinal`: same year with the given ordinal, or
`None` when the ordinal does not fall inside the year. -/
def with_ordinal (d : NaiveDate) (o : Nat) : Option NaiveDate :=
  if 1 ≤ o ∧ o ≤ daysInYear d.year then some ⟨d.year, o⟩ else none

/-- chrono `NaiveDate::from_weekday_of_month(y, 1, Weekday::Tue, 1)`: the
first Tuesday of January of year `y`, via chrono's formula
`day = (7 + target_num - weekday_of_first_num) % 7 + 1` with Tuesday = 1. -/
def firstTuesdayOfJanuary (y : Int) : NaiveDate :=
  ⟨y, (8 - weekdayIdx ⟨y, 1⟩) % 7 + 1⟩

/-- The `tuesday` date computed by `handle_tuesday` (main.rs lines 67-72):
bump today's ordinal by the weekday increment; on overflow past the year end,
roll to the first Tuesday of January of the next year. -/
def handleTuesdayDate (now : NaiveDateTime) : NaiveDate :=
  match with_ordinal now.date (now.date.ordinal + numDaysIncrement now.date.weekday) with
  | none => firstTuesdayOfJanuary (now.date.year + 1)
  | some t => ⟨t.year, t.ordinal⟩

/-- The target instant: the computed date `.and_hms_micro(0, 0, 0, 0)`,
i.e. local midnight (main.rs line 73). -/
def handleTuesdayTarget (now : NaiveDateTime) : NaiveDateTime :=
  ⟨handleTuesdayDate now, 0⟩

/-- Nanoseconds of an instant on the timeline (for differences of
`NaiveDateTime`s, as chrono's `signed_duration_since` computes them). -/
def toNs (t : NaiveDateTime) : Int :=
  daysFromYear1 t.date.year t.date.ordinal * 86400000000000 + t.nsOfDay

/-- chrono `Duration::num_milliseconds`: total milliseconds of a nanosecond
duration, truncated toward zero. -/
def numMilliseconds (ns : Int) : Int :=
  if 0 ≤ ns then ns / 1000000 else -((-ns) / 1000000)

/-- The `diffms` value of `handle_tuesday` (main.rs lines 75-76):
`tuesday.signed_duration_since(now).num_milliseconds()`. -/
def handleTuesdayDiffMs (now : NaiveDateTime) : Int :=
  numMilliseconds (toNs (handleTuesdayTarget now) - toNs now)

example : (⟨2025, 1⟩ : NaiveDate).weekday = Weekday.wed := by decide
example : (⟨2024, 1⟩ : NaiveDate).weekday = Weekday.mon := by decide
example : (⟨1970, 1⟩ : NaiveDate).weekday = Weekday.thu := by decide
example : (⟨2025, 7⟩ : NaiveDate).weekday = Weekday.tue := by decide
example : firstTuesdayOfJanuary 2026 = ⟨2026, 6⟩ := by decide
example : handleTuesdayDiffMs ⟨⟨2025, 7⟩, 43200000000000⟩ = -43200000 := by decide
/-! ### Generic facts about filtered index ranges -/

theorem filter_range_eq_nil {p : Nat → Bool} {n : Nat}
    (h : ∀ j, j < n → p j = false) : (List.range n).filter p = [] := by
  apply List.filter_eq_nil_iff.mpr
  intro a ha
  simp [h a (List.mem_range.mp ha)]

theorem filter_range_singleton {p : Nat → Bool} {i : Nat} (hp : p i = true) :
    ∀ n, i < n → (∀ j, j < n → j ≠ i → p j = false) → (List.range n).filter p = [i] := by
  intro n
  induction n with
  | zero => intro h ho; exact absurd h (by omega)
  | succ m ih =>
    intro hi ho
    rw [List.range_succ, List.filter_append]
    by_cases him : i = m
    · subst him
      have he : (List.range i).filter p = [] :=
        filter_range_eq_nil (fun j hj => ho j (by omega) (by omega))
      rw [he]
      simp [List.filter, hp]
    · have hm : p m = false := ho m (by omega) (fun h => him h.symm)
      rw [ih (by omega) (fun j hj hne => ho j (by omega) hne)]
      simp [List.filter, hm]

theorem le_getLast_of_pairwise_lt (l : List Nat) :
    ∀ (hne : l ≠ []), l.Pairwise (· < ·) → ∀ k, k ∈ l → k ≤ l.getLast hne := by
  induction l with
  | nil => intro hne; exact absurd rfl hne
  | cons a t ih =>
    intro _ hp k hk
    cases t with
    | nil =>
      cases hk with
      | head => simp
      | tail _ h => exact absurd h (List.not_mem_nil k)
    | cons b t2 =>
      rw [List.getLast_cons (List.cons_ne_nil b t2)]
      cases hk with
      | head =>
        have hmem : (b :: t2).getLast (List.cons_ne_nil b t2) ∈ b :: t2 :=
          List.getLast_mem _
        have hlt := List.rel_of_pairwise_cons hp hmem
        omega
      | tail _ hk2 =>
        exact ih (List.cons_ne_nil b t2) hp.of_cons k hk2

theorem timeMatches_sorted (s : List Char) : (timeMatches s).Pairwise (· < ·) :=
  (List.pairwise_lt_range 6).sublist (List.filter_sublist _)

theorem foldl_si_accum (l : List Nat) :
    ∀ (a : Int) (st : String),
      l.foldl (fun acc i => (acc.1 + SI_POWERS.getD i 0, acc.2 ++ SI_UNITS.getD i "")) (a, st) =
        (a + (l.map (fun i => SI_POWERS.getD i 0)).sum,
          st ++ concatAll (l.map (fun i => SI_UNITS.getD i ""))) := by
  induction l with
  | nil => intro a st; simp [concatAll]
  | cons x xs ih =>
    intro a st
    simp only [List.foldl_cons, List.map_cons, List.sum_cons, concatAll]
    rw [ih]
    simp only [Prod.mk.injEq]
    exact ⟨add_assoc a _ _, String.append_assoc st _ _⟩

example : timeMatches ("day".data) = [] := by decide
example : (find_multiplier_from ("day".data)).2 = "hours" := by decide
example : timeMatches ("min days".data) = [1, 3] := by decide
example : (find_multiplier_from ("min days".data)).2 = "days" := by decide
example : siMatches ("kilo week".data) = [12] := by decide
example : (find_multiplier_from ("kilo week".data)).2 = "kiloweeks" := by decide

/-! ### Claims about the unit extractor -/

/-- Claim C2 as stated is false on the code: the input text `"day"` contains
the alias `"day"` (and no other alias of the spec's set, and no metric
alias), yet `find_multiplier_from` falls back to the default unit `"hours"`:
the day entry's actual pattern is `" day|days"`, which requires a leading
space or the plural form. -/
theorem C2_counterexample :
    containsSub ("day".data) ("day".data) = true ∧
    (["sec", "min", "hour", "week", "year"].all
      (fun u => !containsSub ("day".data) u.data)) = true ∧
    ((List.range 20).all (fun j => !siPatternMatches ("day".data) j)) = true ∧
    (find_multiplier_from ("day".data)).2 = "hours" ∧
    (find_multiplier_from ("day".data)).2 ≠ "days" := by decide

/-- Claim C2, amended: for every input text on which exactly one pattern of
the duration table matches (for the day entry this means containing `" day"`
or `"days"`, not the bare word `"day"`) and no metric pattern matches,
`find_multiplier_from` returns that unit's plural name as the label and that
unit's seconds-multiplier times 1000 as the multiplier. -/
theorem C2_theorem (s : List Char) (i : Nat) (hi : i < 6)
    (hone : timePatternMatches s i = true)
    (hother : ∀ j, j < 6 → j ≠ i → timePatternMatches s j = false)
    (hsi : ∀ j, j < 20 → siPatternMatches s j = false) :
    find_multiplier_from s =
      ((TIME_MULTIPLIERS.getD i 0 : ℚ) * 1000, TIME_UNITS_PLURAL.getD i "") := by
  have h1 : timeMatches s = [i] := filter_range_singleton hone 6 hi hother
  have h2 : siMatches s = [] := filter_range_eq_nil hsi
  unfold find_multiplier_from find_multiplier_core time_index_from
  rw [h1, h2]
  norm_num

/-- Witness for the amended C2 at the input `"hour"` (index 2). -/
theorem C2_witness :
    (2 < 6 ∧ timePatternMatches ("hour".data) 2 = true ∧
      (∀ j, j < 6 → j ≠ 2 → timePatternMatches ("hour".data) j = false) ∧
      (∀ j, j < 20 → siPatternMatches ("hour".data) j = false)) ∧
    find_multiplier_from ("hour".data) =
      ((TIME_MULTIPLIERS.getD 2 0 : ℚ) * 1000, TIME_UNITS_PLURAL.getD 2 "") :=
  ⟨⟨by decide, by decide, by decide, by decide⟩,
    C2_theorem ("hour".data) 2 (by decide) (by decide) (by decide) (by decide)⟩

/-- Claim C3: when no duration pattern and no metric pattern matches,
`find_multiplier_from` returns the default unit: multiplier 3600 * 1000 and
label `"hours"`. -/
theorem C3_theorem (s : List Char)
    (ht : ∀ j, j < 6 → timePatternMatches s j = false)
    (hs : ∀ j, j < 20 → siPatternMatches s j = false) :
    find_multiplier_from s = ((3600 : ℚ) * 1000, "hours") := by
  have h1 : timeMatches s = [] := filter_range_eq_nil ht
  have h2 : siMatches s = [] := filter_range_eq_nil hs
  unfold find_multiplier_from find_multiplier_core time_index_from
  rw [h1, h2]
  norm_num [DEFAULT_TIME_INDEX, TIME_MULTIPLIERS, TIME_UNITS_PLURAL]

/-- Witness for C3 at the empty input text. -/
theorem C3_witness :
    ((∀ j, j < 6 → timePatternMatches [] j = false) ∧
      (∀ j, j < 20 → siPatternMatches [] j = false)) ∧
    find_multiplier_from [] = ((3600 : ℚ) * 1000, "hours") :=
  ⟨⟨by decide, by decide⟩, C3_theorem [] (by decide) (by decide)⟩

/-- Claim C4: when at least two duration patterns match, the selected
`time_index` is a matched index and is the highest matched index. -/
theorem C4_theorem (s : List Char) (h2 : 2 ≤ (timeMatches s).length) :
    time_index_from (timeMatches s) ∈ timeMatches s ∧
    ∀ k ∈ timeMatches s, k ≤ time_index_from (timeMatches s) := by
  have hne : timeMatches s ≠ [] := by
    intro h
    rw [h] at h2
    simp at h2
  have hl : time_index_from (timeMatches s) = (timeMatches s).getLast hne := by
    unfold time_index_from
    rw [List.getLast?_eq_getLast _ hne]
  rw [hl]
  exact ⟨List.getLast_mem hne,
    fun k hk => le_getLast_of_pairwise_lt _ hne (timeMatches_sorted s) k hk⟩

/-- Witness for C4 at `"min days"`, which matches indices 1 and 3. -/
theorem C4_witness :
    2 ≤ (timeMatches ("min days".data)).length ∧
    (time_index_from (timeMatches ("min days".data)) ∈ timeMatches ("min days".data) ∧
      ∀ k ∈ timeMatches ("min days".data),
        k ≤ time_index_from (timeMatches ("min days".data))) :=
  ⟨by decide, C4_theorem ("min days".data) (by decide)⟩

/-- Claim C5: for every input text, `find_multiplier_from` returns the
multiplier `TIME_MULTIPLIERS[time_index] * 10 ^ (3 + sum of matched metric
powers)` and the label formed by concatenating the matched metric aliases in
table order followed by the selected unit's plural name. -/
theorem C5_theorem (s : List Char) :
    find_multiplier_from s =
      ((TIME_MULTIPLIERS.getD (time_index_from (timeMatches s)) 0 : ℚ) *
          (10 : ℚ) ^ ((3 : ℤ) + ((siMatches s).map (fun i => SI_POWERS.getD i 0)).sum),
        concatAll ((siMatches s).map (fun i => SI_UNITS.getD i "")) ++
          TIME_UNITS_PLURAL.getD (time_index_from (timeMatches s)) "") := by
  unfold find_multiplier_from find_multiplier_core
  rw [foldl_si_accum]
  simp

/-! ### Weekday arithmetic helpers -/

theorem weekday_eq_tue_iff (d : NaiveDate) :
    d.weekday = Weekday.tue ↔ weekdayIdx d = 1 := by
  unfold NaiveDate.weekday
  rcases h : weekdayIdx d with _ | _ | _ | _ | _ | _ | _ | k <;> simp

/-- On a Tuesday the computed target is today's own midnight: the weekday
increment is 0, so `with_ordinal` keeps the current date. -/
theorem tuesday_target_today (now : NaiveDateTime) (hv : now.valid)
    (hw : now.date.weekday = Weekday.tue) :
    handleTuesdayTarget now = ⟨now.date, 0⟩ := by
  have h1 : 1 ≤ now.date.ordinal := hv.1.1
  have h2 : now.date.ordinal ≤ daysInYear now.date.year := hv.1.2
  unfold handleTuesdayTarget handleTuesdayDate with_ordinal
  rw [hw]
  simp only [numDaysIncrement, Nat.add_zero]
  rw [if_pos ⟨h1, h2⟩]

/-- On a Tuesday the millisecond difference is the (truncated) negation of
the time of day. -/
theorem tuesday_diff_today (now : NaiveDateTime) (hv : now.valid)
    (hw : now.date.weekday = Weekday.tue) :
    handleTuesdayDiffMs now = numMilliseconds (-(now.nsOfDay : Int)) := by
  unfold handleTuesdayDiffMs
  rw [tuesday_target_today now hv hw]
  unfold toNs
  congr 1
  push_cast
  ring

/-- The ordinal produced by `firstTuesdayOfJanuary` really is the first
Tuesday: it lies in the first week, its weekday index is 1 (Tuesday), and no
earlier ordinal of the year has weekday index 1. -/
theorem firstTuesday_spec (y : Int) :
    1 ≤ (firstTuesdayOfJanuary y).ordinal ∧
    (firstTuesdayOfJanuary y).ordinal ≤ 7 ∧
    weekdayIdx (firstTuesdayOfJanuary y) = 1 ∧
    ∀ o, o < (firstTuesdayOfJanuary y).ordinal → 1 ≤ o → weekdayIdx ⟨y, o⟩ ≠ 1 := by
  unfold firstTuesdayOfJanuary weekdayIdx daysFromYear1
  dsimp only
  refine ⟨by omega, by omega, by omega, ?_⟩
  intro o ho h1
  omega

/-! ### Claims about the countdown computation -/

/-- Claim C1 as stated is false on the code: at the Tuesday 2025-01-07,
12:00:00.000 local time, the weekday increment is 0, so the target is that
same day's midnight and the difference is -43200000 ms, not 561600000 ms. -/
theorem C1_counterexample :
    (NaiveDateTime.mk ⟨2025, 7⟩ 43200000000000).valid ∧
    (NaiveDate.mk 2025 7).weekday = Weekday.tue ∧
    handleTuesdayTarget ⟨⟨2025, 7⟩, 43200000000000⟩ = ⟨⟨2025, 7⟩, 0⟩ ∧
    handleTuesdayDiffMs ⟨⟨2025, 7⟩, 43200000000000⟩ = -43200000 ∧
    handleTuesdayDiffMs ⟨⟨2025, 7⟩, 43200000000000⟩ ≠ 561600000 := by decide

/-- Claim C1, amended: for every local now on a Tuesday at 12:00:00.000 the
target `handle_tuesday` selects is the *same* day at local midnight
(increment 0), and the signed millisecond difference is -43200000 ms
(minus 12 hours), not +561600000 ms. -/
theorem C1_theorem (now : NaiveDateTime) (hv : now.valid)
    (hw : now.date.weekday = Weekday.tue) (hn : now.nsOfDay = 43200000000000) :
    handleTuesdayTarget now = ⟨now.date, 0⟩ ∧ handleTuesdayDiffMs now = -43200000 := by
  refine ⟨tuesday_target_today now hv hw, ?_⟩
  rw [tuesday_diff_today now hv hw, hn]
  decide

/-- Witness for the amended C1 at Tuesday 2025-01-07 noon. -/
theorem C1_witness :
    ((NaiveDateTime.mk ⟨2025, 7⟩ 43200000000000).valid ∧
      (NaiveDate.mk 2025 7).weekday = Weekday.tue ∧
      (NaiveDateTime.mk ⟨2025, 7⟩ 43200000000000).nsOfDay = 43200000000000) ∧
    (handleTuesdayTarget ⟨⟨2025, 7⟩, 43200000000000⟩ = ⟨⟨2025, 7⟩, 0⟩ ∧
      handleTuesdayDiffMs ⟨⟨2025, 7⟩, 43200000000000⟩ = -43200000) :=
  ⟨⟨by decide, by decide, rfl⟩,
    C1_theorem ⟨⟨2025, 7⟩, 43200000000000⟩ (by decide) (by decide) rfl⟩

/-- Claim C6: when the bumped ordinal overflows the year, the selected
target is the first Tuesday of January of the following year, at midnight:
its time of day is 0, its year is the next year, its weekday is Tuesday, it
falls within the first seven days of January, and no earlier January day is
a Tuesday. -/
theorem C6_theorem (now : NaiveDateTime) (hv : now.valid)
    (hover : daysInYear now.date.year < now.date.ordinal + numDaysIncrement now.date.weekday) :
    (handleTuesdayTarget now).nsOfDay = 0 ∧
    (handleTuesdayDate now).year = now.date.year + 1 ∧
    (handleTuesdayDate now).weekday = Weekday.tue ∧
    1 ≤ (handleTuesdayDate now).ordinal ∧
    (handleTuesdayDate now).ordinal ≤ 7 ∧
    ∀ o, o < (handleTuesdayDate now).ordinal → 1 ≤ o →
      NaiveDate.weekday ⟨now.date.year + 1, o⟩ ≠ Weekday.tue := by
  have hd : handleTuesdayDate now = firstTuesdayOfJanuary (now.date.year + 1) := by
    unfold handleTuesdayDate with_ordinal
    rw [if_neg (by omega)]
  rw [hd]
  have hs := firstTuesday_spec (now.date.year + 1)
  refine ⟨rfl, rfl, (weekday_eq_tue_iff _).mpr hs.2.2.1, hs.1, hs.2.1, ?_⟩
  intro o ho h1
  rw [Ne, weekday_eq_tue_iff]
  exact hs.2.2.2 o ho h1

/-- Witness for C6 at Wednesday 2025-12-31 (ordinal 365 of a 365-day year,
increment 6): the target is Tuesday 2026-01-06. -/
theorem C6_witness :
    ((NaiveDateTime.mk ⟨2025, 365⟩ 0).valid ∧
      daysInYear 2025 <
        365 + numDaysIncrement (NaiveDate.mk 2025 365).weekday) ∧
    ((handleTuesdayTarget ⟨⟨2025, 365⟩, 0⟩).nsOfDay = 0 ∧
      (handleTuesdayDate ⟨⟨2025, 365⟩, 0⟩).year = 2025 + 1 ∧
      (handleTuesdayDate ⟨⟨2025, 365⟩, 0⟩).weekday = Weekday.tue ∧
      1 ≤ (handleTuesdayDate ⟨⟨2025, 365⟩, 0⟩).ordinal ∧
      (handleTuesdayDate ⟨⟨2025, 365⟩, 0⟩).ordinal ≤ 7 ∧
      ∀ o, o < (handleTuesdayDate ⟨⟨2025, 365⟩, 0⟩).ordinal → 1 ≤ o →
        NaiveDate.weekday ⟨2025 + 1, o⟩ ≠ Weekday.tue) :=
  ⟨⟨by decide, by decide⟩, C6_theorem ⟨⟨2025, 365⟩, 0⟩ (by decide) (by decide)⟩

/-- Claim C10 as stated is false on the code: at Tuesday 2025-01-07 one
nanosecond past midnight, the target (that midnight) does precede now, but
`num_milliseconds` truncates toward zero, so the computed millisecond
difference is 0, not negative. -/
theorem C10_counterexample :
    (NaiveDateTime.mk ⟨2025, 7⟩ 1).valid ∧
    (NaiveDate.mk 2025 7).weekday = Weekday.tue ∧
    0 < (NaiveDateTime.mk ⟨2025, 7⟩ 1).nsOfDay ∧
    handleTuesdayTarget ⟨⟨2025, 7⟩, 1⟩ = ⟨⟨2025, 7⟩, 0⟩ ∧
    toNs (handleTuesdayTarget ⟨⟨2025, 7⟩, 1⟩) < toNs ⟨⟨2025, 7⟩, 1⟩ ∧
    ¬ handleTuesdayDiffMs ⟨⟨2025, 7⟩, 1⟩ < 0 := by decide

/-- Claim C10, amended: for every local now on a Tuesday at least one
millisecond past midnight, the target is today's midnight, which precedes
now, and the computed millisecond difference is negative (for sub-millisecond
times past midnight the truncated difference is 0 instead). -/
theorem C10_theorem (now : NaiveDateTime) (hv : now.valid)
    (hw : now.date.weekday = Weekday.tue) (hms : 1000000 ≤ now.nsOfDay) :
    handleTuesdayTarget now = ⟨now.date, 0⟩ ∧
    toNs (handleTuesdayTarget now) < toNs now ∧
    handleTuesdayDiffMs now < 0 := by
  have ht := tuesday_target_today now hv hw
  refine ⟨ht, ?_, ?_⟩
  · rw [ht]
    unfold toNs
    dsimp only
    omega
  · rw [tuesday_diff_today now hv hw]
    unfold numMilliseconds
    split <;> omega

/-- Witness for the amended C10 at Tuesday 2025-01-07, 00:00:00.001. -/
theorem C10_witness :
    ((NaiveDateTime.mk ⟨2025, 7⟩ 1000000).valid ∧
      (NaiveDate.mk 2025 7).weekday = Weekday.tue ∧
      1000000 ≤ (NaiveDateTime.mk ⟨2025, 7⟩ 1000000).nsOfDay) ∧
    (handleTuesdayTarget ⟨⟨2025, 7⟩, 1000000⟩ = ⟨⟨2025, 7⟩, 0⟩ ∧
      toNs (handleTuesdayTarget ⟨⟨2025, 7⟩, 1000000⟩) < toNs ⟨⟨2025, 7⟩, 1000000⟩ ∧
      handleTuesdayDiffMs ⟨⟨2025, 7⟩, 1000000⟩ < 0) :=
  ⟨⟨by decide, by decide, by decide⟩,
    C10_theorem ⟨⟨2025, 7⟩, 1000000⟩ (by decide) (by decide) (by decide)⟩

/-! ### Claims about determinism, totality, and set semantics -/

/-- Claim C7: over the same constructed pattern tables, two invocations of
`find_multiplier_from` with identical input return identical outputs, and
neither call mutates the cached tables (the data map after each call is the
cache it started with). -/
theorem C7_theorem (c : CustomRegexCache) (s : List Char) :
    (find_multiplier_from_ctx (some c) s).2 = some c ∧
    (find_multiplier_from_ctx ((find_multiplier_from_ctx (some c) s).2) s).1 =
      (find_multiplier_from_ctx (some c) s).1 ∧
    (find_multiplier_from_ctx ((find_multiplier_from_ctx (some c) s).2) s).2 = some c :=
  ⟨rfl, rfl, rfl⟩

/-- Claim C8: once `initialize_regex` has run (whatever the data map held
before), `find_multiplier_from` is total: for every input text it returns a
defined (multiplier, label) pair — the pure extraction result — so the
missing-cache panic branch is unreachable. -/
theorem C8_theorem (d : Option CustomRegexCache) (s : List Char) :
    (find_multiplier_from_ctx (init_regex d) s).1 = some (find_multiplier_from s) ∧
    (find_multiplier_from_ctx (init_regex d) s).1.isSome = true :=
  ⟨rfl, rfl⟩

/-- Claim C9: matching is by set of matched table indices.  The matched
metric index list never repeats an index, and the output of
`find_multiplier_from` depends only on which patterns match — so repeated
occurrences of an alias in the text cannot compound the multiplier or repeat
in the label. -/
theorem C9_theorem (s t : List Char)
    (hsi : ∀ i, i < 20 → siPatternMatches s i = siPatternMatches t i)
    (hti : ∀ i, i < 6 → timePatternMatches s i = timePatternMatches t i) :
    (siMatches s).Nodup ∧ find_multiplier_from s = find_multiplier_from t := by
  constructor
  · exact (List.nodup_range 20).filter _
  · have e1 : siMatches s = siMatches t :=
      List.filter_congr (fun i hi => hsi i (List.mem_range.mp hi))
    have e2 : timeMatches s = timeMatches t :=
      List.filter_congr (fun i hi => hti i (List.mem_range.mp hi))
    unfold find_multiplier_from
    rw [e1, e2]

/-- Witness for C9: `"kilokilo days"` (alias `"kilo"` twice) matches exactly
the same patterns as `"kilo days"`, so the outputs coincide. -/
theorem C9_witness :
    ((∀ i, i < 20 →
        siPatternMatches ("kilokilo days".data) i = siPatternMatches ("kilo days".data) i) ∧
      (∀ i, i < 6 →
        timePatternMatches ("kilokilo days".data) i = timePatternMatches ("kilo days".data) i)) ∧
    ((siMatches ("kilokilo days".data)).Nodup ∧
      find_multiplier_from ("kilokilo days".data) = find_multiplier_from ("kilo days".data)) :=
  ⟨⟨by decide, by decide⟩, C9_theorem ("kilokilo days".data) ("kilo days".data)
    (by decide) (by decide)⟩
